import Mathlib

/-!
Verification development for the Closetome X402 payment verification and
atomic-settlement engine.

The TypeScript sources are shallowly embedded:

* A Solana `PublicKey` is modelled as a `Nat`; the distinguished program ids
  (compute-budget program, token program, associated-token program, system
  program) and the two USDC mints are distinct `Nat` constants.  Only equality
  of keys is ever used by the code under verification.
* `Buffer` data is a `List Nat` of bytes; `Buffer.readUInt32LE` /
  `Buffer.readBigUInt64LE` become `Option`-valued readers that return `none`
  exactly when Node would throw a bounds `RangeError`.
* A decoded transaction is its ordered instruction list
  (`VersionedTransaction.deserialize` + `TransactionMessage.decompile` are the
  out-of-scope decoder of spec section 4.1; the verifiers here start from the
  decoded list, as the claims do).
* Chain queries (`getAssociatedTokenAddress`, `connection.getAccountInfo`) and
  EVM crypto (`ethers` EIP-712 digest + `recoverAddress`) are environment
  parameters: arbitrary functions supplied to the verifier, universally
  quantified in the theorems and instantiated concretely in witnesses.
* A thrown-and-caught exception path is `Option`: a core function returns
  `none` where the TS would throw, and the public wrapper maps `none` to the
  `false` / failure result produced by the surrounding `catch`.
-/

namespace X402

/-- One account reference of an instruction: public key plus the
signer/writable flags (`TransactionInstruction.keys` entries). -/
structure AccountMeta where
  pubkey : Nat
  isSigner : Bool
  isWritable : Bool
deriving DecidableEq, Repr, Inhabited

/-- A decoded instruction: program id, ordered account list, opaque data
bytes (`TransactionInstruction`). -/
structure Instruction where
  programId : Nat
  keys : List AccountMeta
  data : List Nat
deriving DecidableEq, Repr, Inhabited

/-- Compute-budget program id (`ComputeBudgetProgram.programId`). -/
def computeBudgetProgramId : Nat := 1
/-- SPL token program id (`TOKEN_PROGRAM_ID`). -/
def tokenProgramId : Nat := 2
/-- Associated-token program id (`ASSOCIATED_TOKEN_PROGRAM_ID`). -/
def associatedTokenProgramId : Nat := 3
/-- System program id (`11111111111111111111111111111111`). -/
def systemProgramId : Nat := 4
/-- Mainnet USDC mint (`EPjFWdd5...`). -/
def usdcMintMainnet : Nat := 10
/-- Devnet USDC mint (`Gh9ZwEmd...`). -/
def usdcMintDevnet : Nat := 11

/-- `Buffer.readUInt32LE data off`: little-endian 32-bit read; `none` when the
read would run past the end of the buffer (Node throws a RangeError there). -/
def readUInt32LE (data : List Nat) (off : Nat) : Option Nat :=
  if off + 4 ≤ data.length then
    some (data.getD off 0 + 256 * data.getD (off + 1) 0 +
      256 ^ 2 * data.getD (off + 2) 0 + 256 ^ 3 * data.getD (off + 3) 0)
  else none

/-- `Buffer.readBigUInt64LE data off`: little-endian 64-bit read; `none` on an
out-of-bounds read. -/
def readUInt64LE (data : List Nat) (off : Nat) : Option Nat :=
  if off + 8 ≤ data.length then
    some (data.getD off 0 + 256 * data.getD (off + 1) 0 +
      256 ^ 2 * data.getD (off + 2) 0 + 256 ^ 3 * data.getD (off + 3) 0 +
      256 ^ 4 * data.getD (off + 4) 0 + 256 ^ 5 * data.getD (off + 5) 0 +
      256 ^ 6 * data.getD (off + 6) 0 + 256 ^ 7 * data.getD (off + 7) 0)
  else none

/-- Little-endian bytes of a 32-bit value (the wire encoding of the
compute-unit limit written by `ComputeBudgetProgram.setComputeUnitLimit`). -/
def u32le (v : Nat) : List Nat :=
  [v % 256, v / 256 % 256, v / 256 ^ 2 % 256, v / 256 ^ 3 % 256]

/-- Little-endian bytes of a 64-bit value (the wire encoding of the
microLamports field written by `ComputeBudgetProgram.setComputeUnitPrice`, and
of SPL token transfer amounts). -/
def u64le (v : Nat) : List Nat :=
  [v % 256, v / 256 % 256, v / 256 ^ 2 % 256, v / 256 ^ 3 % 256,
   v / 256 ^ 4 % 256, v / 256 ^ 5 % 256, v / 256 ^ 6 % 256, v / 256 ^ 7 % 256]

namespace SolanaService

/-- `SolanaService.isComputeBudgetInstruction`. -/
def isComputeBudgetInstruction (ix : Instruction) : Bool :=
  ix.programId == computeBudgetProgramId

/-- `SolanaService.isSetComputeUnitLimit`: compute-budget program and first
data byte 2. -/
def isSetComputeUnitLimit (ix : Instruction) : Bool :=
  isComputeBudgetInstruction ix &&
    match ix.data with
    | b :: _ => b == 2
    | [] => false

/-- `SolanaService.isSetComputeUnitPrice`: compute-budget program and first
data byte 3. -/
def isSetComputeUnitPrice (ix : Instruction) : Bool :=
  isComputeBudgetInstruction ix &&
    match ix.data with
    | b :: _ => b == 3
    | [] => false

/-- `SolanaService.getComputeUnitLimit`: 0 for non-limit instructions,
otherwise the u32 little-endian read at offset 1 (which may throw). -/
def getComputeUnitLimit (ix : Instruction) : Option Nat :=
  if isSetComputeUnitLimit ix then readUInt32LE ix.data 1 else some 0

/-- `SolanaService.getComputeUnitPrice`: 0 for non-price instructions,
otherwise the u32 little-endian read at offset 1 — only the LOWER 32 bits of
the 8-byte microLamports field. -/
def getComputeUnitPrice (ix : Instruction) : Option Nat :=
  if isSetComputeUnitPrice ix then readUInt32LE ix.data 1 else some 0

/-- `SolanaService.isATACreationInstruction`: associated-token program with
empty data or a single 0/1 discriminator byte. -/
def isATACreationInstruction (ix : Instruction) : Bool :=
  ix.programId == associatedTokenProgramId &&
    (ix.data.isEmpty ||
      (ix.data.length == 1 && (ix.data.getD 0 0 == 0 || ix.data.getD 0 0 == 1)))

/-- Result of `parseATACreationInstruction`. -/
structure ATACreationDetails where
  payer : Nat
  ata : Nat
  owner : Nat
  mint : Nat
  isIdempotent : Bool
deriving DecidableEq, Repr

/-- `SolanaService.parseATACreationInstruction`: fixed 6-position account
layout; `none` when not an ATA creation or fewer than 6 accounts. -/
def parseATACreationInstruction (ix : Instruction) : Option ATACreationDetails :=
  if !isATACreationInstruction ix then none
  else if ix.keys.length < 6 then none
  else some
    { payer := (ix.keys.getD 0 default).pubkey
      ata := (ix.keys.getD 1 default).pubkey
      owner := (ix.keys.getD 2 default).pubkey
      mint := (ix.keys.getD 3 default).pubkey
      isIdempotent := !ix.data.isEmpty && ix.data.getD 0 0 == 1 }

/-- `SolanaService.isTokenTransferInstruction`: token program with
discriminator 3 (transfer) or 12 (transferChecked). -/
def isTokenTransferInstruction (ix : Instruction) : Bool :=
  ix.programId == tokenProgramId &&
    match ix.data with
    | b :: _ => b == 3 || b == 12
    | [] => false

/-- Result of `parseUSDCTransferInstruction`. -/
structure TransferDetails where
  source : Nat
  destination : Nat
  amount : Nat
deriving DecidableEq, Repr

/-- `SolanaService.parseUSDCTransferInstruction`: discriminator 3 reads the
amount at offset 1 with destination at account 1; discriminator 12 shifts the
destination to account 2. -/
def parseUSDCTransferInstruction (ix : Instruction) : Option TransferDetails :=
  if !isTokenTransferInstruction ix then none
  else if ix.data.getD 0 0 == 3 then
    if ix.data.length < 9 then none
    else match readUInt64LE ix.data 1 with
      | none => none
      | some amount =>
        if ix.keys.length < 3 then none
        else some
          { source := (ix.keys.getD 0 default).pubkey
            destination := (ix.keys.getD 1 default).pubkey
            amount := amount }
  else if ix.data.getD 0 0 == 12 then
    if ix.data.length < 10 then none
    else match readUInt64LE ix.data 1 with
      | none => none
      | some amount =>
        if ix.keys.length < 4 then none
        else some
          { source := (ix.keys.getD 0 default).pubkey
            destination := (ix.keys.getD 2 default).pubkey
            amount := amount }
  else none

end SolanaService

/-- Server-side configuration of `SolanaService` (constructor defaults plus
environment overrides): default compute-unit price / limit and the hard
ceiling `maxComputeUnitLimitAtomic` for atomic transactions. -/
structure Config where
  computeUnitPrice : Nat := 1
  computeUnitLimit : Nat := 40000
  maxComputeUnitLimitAtomic : Nat := 1000000
deriving DecidableEq, Repr

/-- The two read-only chain queries the verifier performs:
`getAssociatedTokenAddress (mint, owner)` (canonical associated-account
derivation) and `connection.getAccountInfo` (does the account exist
on-chain).  Both are opaque to the verifier and modelled as arbitrary
functions. -/
structure ChainEnv where
  deriveATA : Nat → Nat → Nat
  accountExists : Nat → Bool

/-- `PaymentRequirements.extra` fields read by the Solana verifiers.  `Option`
is the presence of the field (`??` keeps an explicit 0, so `some 0` and `none`
differ, exactly as in the source). -/
structure Extra where
  computeUnitPrice : Option Nat := none
  computeUnitLimit : Option Nat := none
  feePayer : Option Nat := none
  callbackInstructions : Option (List Instruction) := none

/-- The merchant-declared `PaymentRequirements` fields read by the Solana
verifiers.  `asset` is the SDK-side mint override used by the client builder. -/
structure Requirements where
  network : String := "solana"
  payTo : Option Nat := none
  maxAmountRequired : Option Nat := none
  asset : Option Nat := none
  extra : Extra := {}

/-- The USDC mint selected by a verifier:
`network === solana ? USDC_MINT_MAINNET : USDC_MINT_DEVNET`. -/
def expectedUSDCMint (network : String) : Nat :=
  if network == "solana" then usdcMintMainnet else usdcMintDevnet

namespace SolanaService

/-- State of the compute-budget scan loop shared by `verifyPayment` (step 1)
and `verifyAtomicPayment` (step 1): presence flags and the value of the LAST
matching instruction (the loop overwrites on every match). -/
structure BudgetScan where
  hasLimit : Bool := false
  hasPrice : Bool := false
  limit : Nat := 0
  price : Nat := 0
deriving DecidableEq, Repr

/-- One iteration of the compute-budget scan loop; `none` when a
`readUInt32LE` would throw. -/
def scanBudgetStep (s : BudgetScan) (ix : Instruction) : Option BudgetScan :=
  match (if isSetComputeUnitLimit ix then readUInt32LE ix.data 1 else some s.limit),
        (if isSetComputeUnitPrice ix then readUInt32LE ix.data 1 else some s.price) with
  | some l, some p =>
    some { hasLimit := s.hasLimit || isSetComputeUnitLimit ix
           hasPrice := s.hasPrice || isSetComputeUnitPrice ix
           limit := l
           price := p }
  | _, _ => none

/-- The compute-budget scan over the whole instruction list. -/
def scanBudget (instrs : List Instruction) : Option BudgetScan :=
  instrs.foldlM scanBudgetStep {}

/-- Step 1 of the non-atomic `SolanaService.verifyPayment`: if any
compute-budget instruction is present, both must be; a positive required
price must be matched exactly; a positive required limit must be matched
exactly unless an ATA-creation instruction is present and the found limit is
at most twice the required one. -/
def checkComputeBudget (cfg : Config) (req : Requirements)
    (instrs : List Instruction) (s : BudgetScan) : Bool :=
  if s.hasLimit || s.hasPrice then
    if !(s.hasLimit && s.hasPrice) then false
    else
      let requiredUnitPrice := req.extra.computeUnitPrice.getD cfg.computeUnitPrice
      let requiredUnitLimit := req.extra.computeUnitLimit.getD cfg.computeUnitLimit
      if requiredUnitPrice > 0 && s.price != requiredUnitPrice then false
      else if requiredUnitLimit > 0 && s.limit != requiredUnitLimit then
        instrs.any isATACreationInstruction && !(s.limit > requiredUnitLimit * 2)
      else true
  else true

/-- Steps 2 to the amount check, shared verbatim between
`SolanaService.verifyPayment` (lines 343-443) and
`SolanaService.verifyAtomicPayment` (lines 752-852): first ATA-creation
instruction, first token-transfer instruction, ATA consistency or on-chain
existence of the destination, recipient-derived destination, minimum
amount. -/
def checkTransferSection (env : ChainEnv) (req : Requirements)
    (instrs : List Instruction) : Bool :=
  let ataDetails :=
    match instrs.find? isATACreationInstruction with
    | some ix => parseATACreationInstruction ix
    | none => none
  match instrs.find? isTokenTransferInstruction with
  | none => false
  | some tIx =>
    match parseUSDCTransferInstruction tIx with
    | none => false
    | some td =>
      let usdcMint := expectedUSDCMint req.network
      let ataOk :=
        match ataDetails with
        | some d =>
          (match req.payTo with
            | some r => d.owner == r
            | none => true) &&
          d.ata == env.deriveATA usdcMint d.owner &&
          d.ata == td.destination
        | none => env.accountExists td.destination
      if !ataOk then false
      else if !(match req.payTo with
                | some r => env.deriveATA usdcMint r == td.destination
                | none => true) then false
      else match req.maxAmountRequired with
        | some m => !(td.amount < m)
        | none => true

/-- Core of the non-atomic `SolanaService.verifyPayment` over the decoded
instruction list; `none` where the TS body would throw (caught by the
surrounding `try`). -/
def verifyPaymentCore (cfg : Config) (env : ChainEnv) (req : Requirements)
    (instrs : List Instruction) : Option Bool :=
  if instrs.isEmpty then some false
  else match scanBudget instrs with
    | none => none
    | some s =>
      if !checkComputeBudget cfg req instrs s then some false
      else some (checkTransferSection env req instrs)

/-- `SolanaService.verifyPayment`: any exception is caught and reported as
`false`. -/
def verifyPayment (cfg : Config) (env : ChainEnv) (req : Requirements)
    (instrs : List Instruction) : Bool :=
  (verifyPaymentCore cfg env req instrs).getD false

/-- `SolanaService.instructionsEqual` key comparison: pubkey and isSigner
must match; isWritable is compared only when BOTH accounts are non-signers
(decompile forces signer accounts writable). -/
def keysEqual (k1 k2 : AccountMeta) : Bool :=
  k1.pubkey == k2.pubkey &&
  k1.isSigner == k2.isSigner &&
  (if !k1.isSigner && !k2.isSigner then k1.isWritable == k2.isWritable else true)

/-- `SolanaService.instructionsEqual`: same program id, same key count, same
data length, per-position key equality, byte-equal data. -/
def instructionsEqual (ix1 ix2 : Instruction) : Bool :=
  ix1.programId == ix2.programId &&
  ix1.keys.length == ix2.keys.length &&
  ix1.data.length == ix2.data.length &&
  (ix1.keys.zip ix2.keys).all (fun p => keysEqual p.1 p.2) &&
  ix1.data == ix2.data

/-- Step 1 of `SolanaService.verifyAtomicPayment`: both compute-budget
instructions mandatory, a positive required price matched exactly, and the
found limit must not exceed the configured atomic ceiling. -/
def atomicBudgetCheck (cfg : Config) (req : Requirements) (s : BudgetScan) : Bool :=
  if !(s.hasLimit && s.hasPrice) then false
  else
    let requiredUnitPrice := req.extra.computeUnitPrice.getD cfg.computeUnitPrice
    if requiredUnitPrice > 0 && s.price != requiredUnitPrice then false
    else !(s.limit > cfg.maxComputeUnitLimitAtomic)

/-- Step 3 of `SolanaService.verifyAtomicPayment`: every declared callback
instruction must appear somewhere in the transaction. -/
def callbackPresenceCheck (cbs instrs : List Instruction) : Bool :=
  cbs.all fun cb => instrs.any fun ix => instructionsEqual cb ix

/-- The leading compute-budget scan of step 4 of
`SolanaService.verifyAtomicPayment` (the `while isComputeBudgetInstruction`
loop): consumes the leading run of compute-budget instructions, rejecting a
duplicate price or limit (`none`), and returns the seen flags plus the rest
of the list. -/
def leadBudget (instrs : List Instruction) (p l : Bool) :
    Option (Bool × Bool × List Instruction) :=
  match instrs with
  | [] => some (p, l, [])
  | ix :: rest =>
    if isComputeBudgetInstruction ix then
      if isSetComputeUnitPrice ix then
        if p then none else leadBudget rest true l
      else if isSetComputeUnitLimit ix then
        if l then none else leadBudget rest p true
      else leadBudget rest p l
    else some (p, l, ix :: rest)

/-- Steps 4 of `SolanaService.verifyAtomicPayment` as a partial function: the
instruction tail that remains after the leading compute-budget pair, the
optional ATA-creation instruction and the mandatory transfer instruction;
`none` when the positional structure is violated. -/
def atomicRemaining (instrs : List Instruction) : Option (List Instruction) :=
  match leadBudget instrs false false with
  | none => none
  | some (p, l, rest1) =>
    if !(p && l) then none
    else
      let rest2 :=
        match rest1 with
        | ix :: r => if isATACreationInstruction ix then r else ix :: r
        | [] => []
      match rest2 with
      | ix :: r3 => if isTokenTransferInstruction ix then some r3 else none
      | [] => none

/-- Step 5 of `SolanaService.verifyAtomicPayment`: position-by-position
instruction equality of the remaining tail against the callback list. -/
def pairwiseInstructionsEqual (tail cbs : List Instruction) : Bool :=
  (tail.zip cbs).all fun p => instructionsEqual p.1 p.2

/-- Steps 4-5 of `SolanaService.verifyAtomicPayment` combined: the remaining
tail must exist, match the callback count, and match pairwise. -/
def atomicStructureCheck (cbs instrs : List Instruction) : Bool :=
  match atomicRemaining instrs with
  | none => false
  | some tail => tail.length == cbs.length && pairwiseInstructionsEqual tail cbs

/-- Core of `SolanaService.verifyAtomicPayment` over the decoded instruction
list; `none` where the TS body would throw. -/
def verifyAtomicPaymentCore (cfg : Config) (env : ChainEnv) (req : Requirements)
    (instrs : List Instruction) : Option Bool :=
  if instrs.isEmpty then some false
  else match scanBudget instrs with
    | none => none
    | some s =>
      if !atomicBudgetCheck cfg req s then some false
      else if !checkTransferSection env req instrs then some false
      else match req.extra.callbackInstructions with
        | none => some false
        | some cbs =>
          if !callbackPresenceCheck cbs instrs then some false
          else some (atomicStructureCheck cbs instrs)

/-- `SolanaService.verifyAtomicPayment`: any exception is caught and reported
as `false`. -/
def verifyAtomicPayment (cfg : Config) (env : ChainEnv) (req : Requirements)
    (instrs : List Instruction) : Bool :=
  (verifyAtomicPaymentCore cfg env req instrs).getD false

/-- Outcome of the chain-submission half of `settleAtomicPayment`:
`sendResult` is the signature returned by `connection.sendTransaction`
(`none` when it throws), `confirmErr` whether `confirmTransaction` reports a
chain error. -/
structure SubmitEnv where
  sendResult : Option String
  confirmErr : Bool

/-- `SettlementResult` of spec section 3. -/
structure SettlementResult where
  success : Bool
  transactionHash : Option String := none
  error : Option String := none
deriving DecidableEq, Repr

/-- `SolanaService.settleAtomicPayment`: re-runs the atomic verifier first
and only then signs and submits.  The second component of the result records
whether `connection.sendTransaction` was invoked at all. -/
def settleAtomicPayment (cfg : Config) (env : ChainEnv) (senv : SubmitEnv)
    (req : Requirements) (instrs : List Instruction) : SettlementResult × Bool :=
  if !verifyAtomicPayment cfg env req instrs then
    ({ success := false, error := some "Atomic payment verification failed" }, false)
  else
    match senv.sendResult with
    | none => ({ success := false, error := some "Failed to settle atomic payment" }, true)
    | some sig =>
      if senv.confirmErr then
        ({ success := false, error := some "Transaction failed" }, true)
      else
        ({ success := true, transactionHash := some sig }, true)

end SolanaService

/-- Wire encoding of `ComputeBudgetProgram.setComputeUnitPrice`: discriminator
byte 3 followed by the 8-byte little-endian microLamports value (spec section
6 discriminator table). -/
def setComputeUnitPriceIx (micro : Nat) : Instruction :=
  { programId := computeBudgetProgramId, keys := [], data := 3 :: u64le micro }

/-- Wire encoding of `ComputeBudgetProgram.setComputeUnitLimit`: discriminator
byte 2 followed by the 4-byte little-endian unit count. -/
def setComputeUnitLimitIx (units : Nat) : Instruction :=
  { programId := computeBudgetProgramId, keys := [], data := 2 :: u32le units }

/-- Wire encoding of `createTransferInstruction` (spl-token): discriminator 3,
8-byte little-endian amount, accounts source (writable), destination
(writable), owner (signer). -/
def transferIx (source dest owner amount : Nat) : Instruction :=
  { programId := tokenProgramId,
    keys := [⟨source, false, true⟩, ⟨dest, false, true⟩, ⟨owner, true, false⟩],
    data := 3 :: u64le amount }

/-- Wire encoding of `createAssociatedTokenAccountInstruction` (spl-token):
empty data, fixed 6-position account layout payer (signer, writable), ata
(writable), owner, mint, system program, token program. -/
def createATAIx (payer ata owner mint : Nat) : Instruction :=
  { programId := associatedTokenProgramId,
    keys := [⟨payer, true, true⟩, ⟨ata, false, true⟩, ⟨owner, false, false⟩,
             ⟨mint, false, false⟩, ⟨systemProgramId, false, false⟩,
             ⟨tokenProgramId, false, false⟩],
    data := [] }

/- The client-side `TransactionParser` (mcp-server) re-implements the same
classifiers as the facilitator `SolanaService`; the duplication is in the
repository (spec section 9 flags it as a design defect). -/
namespace TransactionParser

/-- `TransactionParser.isComputeBudgetInstruction`. -/
def isComputeBudgetInstruction (ix : Instruction) : Bool :=
  ix.programId == computeBudgetProgramId

/-- `TransactionParser.isSetComputeUnitLimit`. -/
def isSetComputeUnitLimit (ix : Instruction) : Bool :=
  isComputeBudgetInstruction ix &&
    match ix.data with
    | b :: _ => b == 2
    | [] => false

/-- `TransactionParser.isSetComputeUnitPrice`. -/
def isSetComputeUnitPrice (ix : Instruction) : Bool :=
  isComputeBudgetInstruction ix &&
    match ix.data with
    | b :: _ => b == 3
    | [] => false

/-- `TransactionParser.getComputeUnitLimit`. -/
def getComputeUnitLimit (ix : Instruction) : Option Nat :=
  if isSetComputeUnitLimit ix then readUInt32LE ix.data 1 else some 0

/-- `TransactionParser.getComputeUnitPrice`: like the facilitator parser,
reads only the lower 32 bits of the 8-byte microLamports field. -/
def getComputeUnitPrice (ix : Instruction) : Option Nat :=
  if isSetComputeUnitPrice ix then readUInt32LE ix.data 1 else some 0

/-- `TransactionParser.isATACreationInstruction`. -/
def isATACreationInstruction (ix : Instruction) : Bool :=
  ix.programId == associatedTokenProgramId &&
    (ix.data.isEmpty ||
      (ix.data.length == 1 && (ix.data.getD 0 0 == 0 || ix.data.getD 0 0 == 1)))

/-- `TransactionParser.isTokenTransferInstruction`. -/
def isTokenTransferInstruction (ix : Instruction) : Bool :=
  ix.programId == tokenProgramId &&
    match ix.data with
    | b :: _ => b == 3 || b == 12
    | [] => false

/-- `TransactionParser.isSystemTransfer`: system program with the 4-byte
little-endian instruction type at offset 0 equal to 2. -/
def isSystemTransfer (ix : Instruction) : Bool :=
  ix.programId == systemProgramId &&
    decide (4 ≤ ix.data.length) &&
    readUInt32LE ix.data 0 == some 2

end TransactionParser

namespace IntentChecker

/-- `IntentChecker.validateCallbackInstructions`: invalid as soon as any
account of any callback instruction is the user wallet, whatever its
signer/writable flags. -/
def validateCallbackInstructions (cbs : List Instruction) (userWallet : Nat) : Bool :=
  !(cbs.any fun ix => ix.keys.any fun k => k.pubkey == userWallet)

/-- Warning messages pushed by `IntentChecker.analyzeTransaction` (string
payloads reduced to their identifying data). -/
inductive WarnTag
  | unknownWritableSigner (programId : Nat)
  | priceWithoutLimit
deriving DecidableEq, Repr

/-- Error messages pushed by `IntentChecker.analyzeTransaction`. -/
inductive ErrTag
  | decompileFailed
  | computeLimitExceedsMax (limit max : Nat)
deriving DecidableEq, Repr

/-- `IntentCheckResult` restricted to the fields the analysis computes (the
human-readable summary strings and the floating-point fee estimate are
presentation only and are elided). -/
structure IntentCheckResult where
  safe : Bool
  warnings : List WarnTag
  errors : List ErrTag
  computeUnits : Nat
  computeUnitPrice : Nat
deriving DecidableEq, Repr

/-- Accumulator of the instruction loop in
`IntentChecker.analyzeTransaction`. -/
structure AnalyzeState where
  computeUnits : Nat := 0
  computeUnitPrice : Nat := 0
  hasComputeLimit : Bool := false
  hasComputePrice : Bool := false
  warnings : List WarnTag := []
  errors : List ErrTag := []
deriving DecidableEq, Repr

/-- Is this key the user wallet as a writable signer on an instruction that is
not one of the recognized payment kinds (token transfer, native transfer,
ATA creation)?  This is the per-key condition of the warning loop. -/
def unknownWritableSignerKey (userWallet : Nat) (ix : Instruction)
    (k : AccountMeta) : Bool :=
  k.pubkey == userWallet && k.isSigner && k.isWritable &&
  !TransactionParser.isTokenTransferInstruction ix &&
  !TransactionParser.isSystemTransfer ix &&
  !TransactionParser.isATACreationInstruction ix

/-- One iteration of the instruction loop of
`IntentChecker.analyzeTransaction`; `none` when a compute-budget value read
would throw. -/
def analyzeStep (maxLimit userWallet : Nat) (st : AnalyzeState)
    (ix : Instruction) : Option AnalyzeState :=
  match (if TransactionParser.isSetComputeUnitLimit ix then readUInt32LE ix.data 1 else some st.computeUnits),
        (if TransactionParser.isSetComputeUnitPrice ix then readUInt32LE ix.data 1 else some st.computeUnitPrice) with
  | some units, some price =>
    let errs :=
      if TransactionParser.isSetComputeUnitLimit ix && decide (maxLimit < units) then
        st.errors ++ [ErrTag.computeLimitExceedsMax units maxLimit]
      else st.errors
    let warns :=
      st.warnings ++
        (ix.keys.filter (unknownWritableSignerKey userWallet ix)).map
          (fun _ => WarnTag.unknownWritableSigner ix.programId)
    some { computeUnits := units
           computeUnitPrice := price
           hasComputeLimit := st.hasComputeLimit || TransactionParser.isSetComputeUnitLimit ix
           hasComputePrice := st.hasComputePrice || TransactionParser.isSetComputeUnitPrice ix
           warnings := warns
           errors := errs }
  | _, _ => none

/-- `IntentChecker.analyzeTransaction` over the decoded instruction list:
empty decode reports the decompile error; otherwise the loop accumulates
warnings and errors, a trailing price-without-limit warning is appended, and
`safe` is exactly `errors.isEmpty`.  `none` where the TS would throw (this
method has no try/catch). -/
def analyzeTransaction (maxLimit userWallet : Nat)
    (instrs : List Instruction) : Option IntentCheckResult :=
  if instrs.isEmpty then
    some { safe := false, warnings := [], errors := [ErrTag.decompileFailed]
           computeUnits := 0, computeUnitPrice := 0 }
  else
    match instrs.foldlM (analyzeStep maxLimit userWallet) {} with
    | none => none
    | some st =>
      let warns :=
        if st.hasComputePrice && !st.hasComputeLimit then
          st.warnings ++ [WarnTag.priceWithoutLimit]
        else st.warnings
      some { safe := st.errors.isEmpty, warnings := warns, errors := st.errors
             computeUnits := st.computeUnits, computeUnitPrice := st.computeUnitPrice }

end IntentChecker

namespace ClientSDK

/-- The SDK client `validateSolanaCallbackInstructions`: throws (here:
`false`) as soon as any account of any callback instruction is the user
wallet, whatever its flags. -/
def validateSolanaCallbackInstructions (cbs : List Instruction)
    (userWallet : Nat) : Bool :=
  !(cbs.any fun ix => ix.keys.any fun k => k.pubkey == userWallet)

/-- JavaScript `a || b` default for an optional numeric field: 0 is falsy, so
an explicit 0 falls back to the default (unlike the facilitator `??`). -/
def orDefault (v : Option Nat) (d : Nat) : Nat :=
  match v with
  | some (n + 1) => n + 1
  | _ => d

/-- The SDK client `createSolanaAtomicPaymentTransaction`, modelled as the
ordered instruction list of the transaction it builds and signs;
`none` wherever the TS throws (missing callback instructions, the security
validation, or a missing `payTo` / `maxAmountRequired` non-null assertion).
The blockhash, message compilation and user signature do not affect the
instruction list and are elided. -/
def createSolanaAtomicPaymentTransaction (env : ChainEnv) (payer : Nat)
    (req : Requirements) : Option (List Instruction) :=
  match req.extra.callbackInstructions with
  | none => none
  | some cbs =>
    if !validateSolanaCallbackInstructions cbs payer then none
    else
      match req.payTo, req.maxAmountRequired with
      | some recipient, some amount =>
        let usdcMint := req.asset.getD (expectedUSDCMint req.network)
        let payerATA := env.deriveATA usdcMint payer
        let recipientATA := env.deriveATA usdcMint recipient
        let needsATACreation := !env.accountExists recipientATA
        let feePayer := req.extra.feePayer.getD payer
        let computeLimit :=
          orDefault req.extra.computeUnitLimit (if needsATACreation then 40000 else 200000)
        let computePrice := orDefault req.extra.computeUnitPrice 1
        some ([setComputeUnitPriceIx computePrice, setComputeUnitLimitIx computeLimit] ++
          (if needsATACreation then [createATAIx feePayer recipientATA recipient usdcMint] else []) ++
          [transferIx payerATA recipientATA payer amount] ++ cbs)
      | _, _ => none

end ClientSDK

/- Authorization-model (EVM) side: `EVMService` and `BaseService` of the
facilitator.  EVM addresses stay `String`s because the code compares them
case-insensitively via `toLowerCase`; amounts are `Nat` (uint256 decimal
strings through `BigInt`); timestamps are `Nat` unix seconds (`parseInt`). -/
namespace EVMService

/-- `EVMPayAuth`: one EIP-3009 transfer authorization with its split
signature.  `from` is a Lean keyword, hence `from_`. -/
structure EVMPayAuth where
  from_ : String
  to_ : String
  value : Nat
  validAfter : Nat
  validBefore : Nat
  nonce : Nat
  v : Nat
  r : Nat
  s : Nat

/-- Environment of the EVM verifier: current unix time, the ethers EIP-712
digest + `recoverAddress` pipeline (`none` when ethers throws), the ethers
`isAddress` format check, and the two read-only values from the settlement
proxy contract (`feeReceiver`, `feeBps`), plus the per-network proxy-contract
configuration (`none` when unset, where `getProxyContract` throws). -/
structure EVMEnv where
  now : Nat
  recover : String → EVMPayAuth → Option String
  isAddress : String → Bool
  feeReceiver : String
  feeBps : Nat
  proxyContract : String → Option String

/-- Result of `EVMService.verifyTransferWithAuthorization`. -/
structure TWAResult where
  isValid : Bool
  error : Option String := none
  recoveredAddress : Option String := none
deriving DecidableEq, Repr

/-- `EVMService.verifyTransferWithAuthorization`: recover the signer from the
EIP-712 digest, require it to equal `from` (case-insensitive), then require
`validAfter ≤ now ≤ validBefore` (both bounds inclusive); any ethers
exception is caught as invalid. -/
def verifyTransferWithAuthorization (env : EVMEnv) (auth : EVMPayAuth)
    (network : String) : TWAResult :=
  match env.recover network auth with
  | none => { isValid := false, error := some "Signature verification error" }
  | some rec =>
    if rec.toLower != auth.from_.toLower then
      { isValid := false, error := some "Signature verification failed"
        recoveredAddress := some rec }
    else if env.now < auth.validAfter then
      { isValid := false, error := some "Authorization not yet valid" }
    else if env.now > auth.validBefore then
      { isValid := false, error := some "Authorization expired" }
    else
      { isValid := true, recoveredAddress := some rec }

/-- `EVMAtomicPaymentPayload`: the two authorizations plus the callback
passthrough. -/
structure EVMAtomicPayload where
  userPay : EVMPayAuth
  feePay : EVMPayAuth
  target : String
  callback : String
  network : String

/-- `VerificationResult` shape returned by `EVMService.verifyAtomicPayment`. -/
structure EVMVerifyResult where
  isValid : Bool
  error : Option String := none
  feeAmount : Option Nat := none
deriving DecidableEq, Repr

/-- `EVMService.verifyAtomicPayment`: address format checks, independent
EIP-3009 verification of `userPay` and `feePay`, then the on-chain fee
policy: `feePay.to == feeReceiver` (case-insensitive),
`feePay.value == floor(userPay.value * feeBps / 10000)` exactly, and
`feePay.from == userPay.to` (case-insensitive). -/
def verifyAtomicPayment (env : EVMEnv) (payload : EVMAtomicPayload) :
    EVMVerifyResult :=
  match env.proxyContract payload.network with
  | none => { isValid := false, error := some "Verification error: no proxy contract configured" }
  | some _ =>
    if !(env.isAddress payload.userPay.from_ && env.isAddress payload.userPay.to_) then
      { isValid := false, error := some "Invalid addresses in userPay" }
    else if !(env.isAddress payload.feePay.from_ && env.isAddress payload.feePay.to_) then
      { isValid := false, error := some "Invalid addresses in feePay" }
    else if !(verifyTransferWithAuthorization env payload.userPay payload.network).isValid then
      { isValid := false, error := some "userPay signature verification failed" }
    else if !(verifyTransferWithAuthorization env payload.feePay payload.network).isValid then
      { isValid := false, error := some "feePay signature verification failed" }
    else if payload.feePay.to_.toLower != env.feeReceiver.toLower then
      { isValid := false, error := some "feePay.to does not match feeReceiver" }
    else
      let expectedFee := payload.userPay.value * env.feeBps / 10000
      if payload.feePay.value != expectedFee then
        { isValid := false, error := some "feePay.value does not match expected fee" }
      else if payload.feePay.from_.toLower != payload.userPay.to_.toLower then
        { isValid := false, error := some "feePay.from must equal userPay.to" }
      else
        { isValid := true, feeAmount := some expectedFee }

end EVMService

namespace BaseService

/-- Character class of the validation regexes: one hexadecimal digit. -/
def isHexDigit (c : Char) : Bool :=
  (decide ('0' ≤ c) && decide (c ≤ '9')) ||
  (decide ('a' ≤ c) && decide (c ≤ 'f')) ||
  (decide ('A' ≤ c) && decide (c ≤ 'F'))

/-- A 0x-prefixed string of exactly `n` hex digits (the shape shared by
`EvmAddressRegex` (40), `EvmSignatureRegex` (130) and
`HexEncoded64ByteRegex` (128)). -/
def isHexStringOfLength (n : Nat) (s : String) : Bool :=
  match s.toList with
  | '0' :: 'x' :: rest => rest.length == n && rest.all isHexDigit
  | _ => false

/-- `ExactEvmPayloadAuthorization` with numeric fields already parsed
(`parseInt` / `BigInt` of the decimal strings). -/
structure Authorization where
  from_ : String
  to_ : String
  value : Nat
  validAfter : Nat
  validBefore : Nat
  nonce : String

/-- `ExactEvmPayload`: signature plus authorization. -/
structure Payload where
  signature : String
  authorization : Authorization

/-- Requirements fields read by `BaseService.verifyPayment`. -/
structure Requirements where
  network : String
  payTo : Option String := none
  maxAmountRequired : Option Nat := none

/-- `BaseService.verifyPayment`: network gate, signature/address/nonce format
regexes, the inclusive time window, recipient (case-insensitive) and minimum
amount.  (The signature is never cryptographically checked here; the source
marks that as a TODO.) -/
def verifyPayment (now : Nat) (payload : Payload) (req : Requirements) : Bool :=
  if req.network != "base" && req.network != "base-sepolia" then false
  else if !isHexStringOfLength 130 payload.signature then false
  else if payload.authorization.from_.isEmpty || payload.authorization.to_.isEmpty ||
      payload.authorization.nonce.isEmpty then false
  else if !(isHexStringOfLength 40 payload.authorization.from_ &&
      isHexStringOfLength 40 payload.authorization.to_) then false
  else if !isHexStringOfLength 128 payload.authorization.nonce then false
  else if now < payload.authorization.validAfter then false
  else if now > payload.authorization.validBefore then false
  else if (match req.payTo with
           | some p => payload.authorization.to_.toLower != p.toLower
           | none => false) then false
  else match req.maxAmountRequired with
    | some m => !(payload.authorization.value < m)
    | none => true

end BaseService

/- Concrete fixtures used by witnesses and counterexamples.  The chain
environment is an arbitrary computable instantiation of the two read-only
queries; `110007` is `deriveATA usdcMintMainnet 7`, the associated account of
the recipient `7` used throughout. -/

/-- A concrete chain environment: an injective associated-account derivation
and a chain on which every account exists. -/
def concreteEnv : ChainEnv :=
  { deriveATA := fun mint owner => 100000 + 1000 * mint + owner
    accountExists := fun _ => true }

/-- Requirements used by the atomic fixtures: pay 10 units to recipient 7 on
mainnet at compute-unit price 1, with one declared callback instruction that
is itself a `setComputeUnitLimit 5`. -/
def reqC2 : Requirements :=
  { network := "solana", payTo := some 7, maxAmountRequired := some 10
    extra := { computeUnitPrice := some 1
               callbackInstructions := some [setComputeUnitLimitIx 5] } }

/-- The over-ceiling limit instruction of the C2 counterexample. -/
def limitHugeC2 : Instruction := setComputeUnitLimitIx 1000001

/-- C2 counterexample transaction: the leading compute-budget pair carries a
limit of 1000001 (above the 1000000 ceiling), and a second
`setComputeUnitLimit 5` rides in the callback tail, so the scan (which keeps
the LAST limit value) checks 5 against the ceiling. -/
def instrsC2 : List Instruction :=
  [setComputeUnitPriceIx 1, limitHugeC2,
   transferIx 50 110007 60 10, setComputeUnitLimitIx 5]

/-- Requirements of the C6 counterexample: the merchant explicitly specifies
a target compute-unit price of 0. -/
def reqC6 : Requirements :=
  { network := "solana", payTo := some 7, maxAmountRequired := some 10
    extra := { computeUnitPrice := some 0, computeUnitLimit := some 40000 } }

/-- C6 counterexample transaction: compute-unit price 7 differs from the
specified target 0. -/
def instrsC6 : List Instruction :=
  [setComputeUnitPriceIx 7, setComputeUnitLimitIx 40000, transferIx 50 110007 60 10]

/-- Requirements of the C7 counterexample (no compute-budget targets). -/
def reqC7 : Requirements :=
  { network := "solana", payTo := some 7, maxAmountRequired := some 10 }

/-- C7 counterexample transaction: two token-transfer instructions; only the
first is ever validated. -/
def instrsC7 : List Instruction :=
  [transferIx 50 110007 60 10, transferIx 1 2 3 0]

/-- Two distinct opaque callback instructions for the C1 witness. -/
def cbA : Instruction := { programId := 77, keys := [], data := [1] }

/-- Second opaque callback instruction for the C1 witness. -/
def cbB : Instruction := { programId := 88, keys := [], data := [2] }

/-- C1 witness requirements: callbacks declared in order `[cbA, cbB]`. -/
def reqC1 : Requirements :=
  { network := "solana", payTo := some 7, maxAmountRequired := some 10
    extra := { computeUnitPrice := some 1
               callbackInstructions := some [cbA, cbB] } }

/-- C1 witness transaction: the trailing instructions `[cbB, cbA]` are a
permutation, but not the declared order, of the callback list. -/
def instrsC1 : List Instruction :=
  [setComputeUnitPriceIx 1, setComputeUnitLimitIx 40000,
   transferIx 50 110007 60 10, cbB, cbA]

/-- C4 fixture: an instruction of an unrecognized program (99) that carries
the user wallet (9) as a signer+writable account. -/
def unknownIxC4 : Instruction := { programId := 99, keys := [⟨9, true, true⟩], data := [] }

/-- The intent-check result on `[unknownIxC4]` for wallet 9: a warning but no
error, hence safe. -/
def resC4 : IntentChecker.IntentCheckResult :=
  { safe := true, warnings := [IntentChecker.WarnTag.unknownWritableSigner 99]
    errors := [], computeUnits := 0, computeUnitPrice := 0 }

/- Helper lemmas (shared; not tied to a single claim). -/

/-- A SetComputeUnitLimit instruction (first data byte 2) is never a
SetComputeUnitPrice instruction (first data byte 3). -/
lemma price_ne_limit (ix : Instruction)
    (h : SolanaService.isSetComputeUnitLimit ix = true) :
    SolanaService.isSetComputeUnitPrice ix = false := by
  unfold SolanaService.isSetComputeUnitLimit at h
  unfold SolanaService.isSetComputeUnitPrice
  cases hd : ix.data with
  | nil => simp [hd] at h
  | cons b bs => simp_all

/-- The limit value remembered by the compute-budget scan is the u32 read of
one of the SetComputeUnitLimit instructions of the list (the last one), or
was already in the accumulator. -/
lemma scanBudget_limit_source :
    ∀ (l : List Instruction) (st s : SolanaService.BudgetScan),
      List.foldlM SolanaService.scanBudgetStep st l = some s → s.hasLimit = true →
      (∃ ix ∈ l, SolanaService.isSetComputeUnitLimit ix = true ∧
        readUInt32LE ix.data 1 = some s.limit) ∨
      (st.hasLimit = true ∧ st.limit = s.limit) := by
  intro l
  induction l with
  | nil =>
    intro st s h hl
    simp only [List.foldlM_nil, Option.pure_def, Option.some.injEq] at h
    subst h
    exact Or.inr ⟨hl, rfl⟩
  | cons ix rest ih =>
    intro st s h hl
    rw [List.foldlM_cons] at h
    cases hstep : SolanaService.scanBudgetStep st ix with
    | none =>
      rw [hstep] at h
      simp only [Option.bind_eq_bind, Option.none_bind] at h
      exact Option.noConfusion h
    | some st2 =>
      rw [hstep] at h
      simp only [Option.bind_eq_bind, Option.some_bind] at h
      rcases ih st2 s h hl with hex | ⟨h1, h2⟩
      · obtain ⟨jx, hmem, hj1, hj2⟩ := hex
        exact Or.inl ⟨jx, List.mem_cons_of_mem _ hmem, hj1, hj2⟩
      · unfold SolanaService.scanBudgetStep at hstep
        by_cases hL : SolanaService.isSetComputeUnitLimit ix = true
        · have hpf : SolanaService.isSetComputeUnitPrice ix = false := price_ne_limit ix hL
          rw [if_pos hL] at hstep
          cases hr : readUInt32LE ix.data 1 with
          | none => rw [hr] at hstep; simp at hstep
          | some v =>
            rw [hr, if_neg (by simp [hpf])] at hstep
            simp only [Option.some.injEq] at hstep
            refine Or.inl ⟨ix, List.mem_cons_self _ _, hL, ?_⟩
            rw [hr, ← h2, ← hstep]
        · rw [if_neg hL] at hstep
          cases hp : (if SolanaService.isSetComputeUnitPrice ix = true
              then readUInt32LE ix.data 1 else some st.price) with
          | none => rw [hp] at hstep; simp at hstep
          | some pr =>
            rw [hp] at hstep
            simp only [Option.some.injEq] at hstep
            refine Or.inr ⟨?_, ?_⟩
            · have : st2.hasLimit = st.hasLimit := by
                rw [← hstep]
                simp [Bool.eq_false_iff.mpr hL]
              rw [← this]; exact h1
            · have : st2.limit = st.limit := by rw [← hstep]
              rw [← h2, this]

/-- One intent-analysis step appends exactly the warnings of the keys that
place the user wallet as a writable signer on a non-payment instruction. -/
lemma analyzeStep_warnings (m w : Nat) (st st2 : IntentChecker.AnalyzeState)
    (ix : Instruction) (h : IntentChecker.analyzeStep m w st ix = some st2) :
    st2.warnings = st.warnings ++
      (ix.keys.filter (IntentChecker.unknownWritableSignerKey w ix)).map
        (fun _ => IntentChecker.WarnTag.unknownWritableSigner ix.programId) := by
  unfold IntentChecker.analyzeStep at h
  cases h1 : (if TransactionParser.isSetComputeUnitLimit ix = true
      then readUInt32LE ix.data 1 else some st.computeUnits) with
  | none => rw [h1] at h; simp at h
  | some units =>
    cases h2 : (if TransactionParser.isSetComputeUnitPrice ix = true
        then readUInt32LE ix.data 1 else some st.computeUnitPrice) with
    | none => rw [h1, h2] at h; simp at h
    | some price =>
      rw [h1, h2] at h
      simp only [Option.some.injEq] at h
      rw [← h]

/-- Warnings only accumulate over the intent-analysis loop. -/
lemma analyzeFold_warnings_prefix (m w : Nat) :
    ∀ (l : List Instruction) (st s : IntentChecker.AnalyzeState),
      List.foldlM (IntentChecker.analyzeStep m w) st l = some s →
      ∃ ext, s.warnings = st.warnings ++ ext := by
  intro l
  induction l with
  | nil =>
    intro st s h
    simp only [List.foldlM_nil, Option.pure_def, Option.some.injEq] at h
    subst h
    exact ⟨[], by simp⟩
  | cons ix rest ih =>
    intro st s h
    rw [List.foldlM_cons] at h
    cases hstep : IntentChecker.analyzeStep m w st ix with
    | none =>
      rw [hstep] at h
      simp only [Option.bind_eq_bind, Option.none_bind] at h
      exact Option.noConfusion h
    | some st2 =>
      rw [hstep] at h
      simp only [Option.bind_eq_bind, Option.some_bind] at h
      obtain ⟨ext2, hext2⟩ := ih st2 s h
      exact ⟨(ix.keys.filter (IntentChecker.unknownWritableSignerKey w ix)).map
          (fun _ => IntentChecker.WarnTag.unknownWritableSigner ix.programId) ++ ext2, by
        rw [hext2, analyzeStep_warnings m w st st2 ix hstep, List.append_assoc]⟩

/-- If some instruction places the user wallet as a writable signer outside
the payment kinds, the intent-analysis loop ends with a nonempty warning
list. -/
lemma analyzeFold_warning_nonempty (m w : Nat) :
    ∀ (l : List Instruction) (st s : IntentChecker.AnalyzeState),
      List.foldlM (IntentChecker.analyzeStep m w) st l = some s →
      (∃ ix ∈ l, ∃ k ∈ ix.keys, IntentChecker.unknownWritableSignerKey w ix k = true) →
      s.warnings ≠ [] := by
  intro l
  induction l with
  | nil => intro st s h hex; simp at hex
  | cons ix rest ih =>
    intro st s h hex
    rw [List.foldlM_cons] at h
    cases hstep : IntentChecker.analyzeStep m w st ix with
    | none =>
      rw [hstep] at h
      simp only [Option.bind_eq_bind, Option.none_bind] at h
      exact Option.noConfusion h
    | some st2 =>
      rw [hstep] at h
      simp only [Option.bind_eq_bind, Option.some_bind] at h
      rcases hex with ⟨jx, hjmem, k, hk, hcond⟩
      rcases List.mem_cons.mp hjmem with rfl | hjrest
      · obtain ⟨ext2, hext2⟩ := analyzeFold_warnings_prefix m w rest st2 s h
        have hfil : (jx.keys.filter (IntentChecker.unknownWritableSignerKey w jx)) ≠ [] :=
          List.ne_nil_of_mem (List.mem_filter.mpr ⟨hk, hcond⟩)
        rw [hext2, analyzeStep_warnings m w st st2 jx hstep]
        intro hcontra
        simp only [List.append_eq_nil, List.map_eq_nil_iff] at hcontra
        exact hfil (by tauto)
      · exact ih st2 s h ⟨jx, hjrest, k, hk, hcond⟩

/-- Reading a u32 at offset 1 of a discriminator byte followed by the 8-byte
little-endian encoding recovers the value modulo 2^32. -/
lemma readUInt32LE_disc_u64le (d v : Nat) :
    readUInt32LE (d :: u64le v) 1 = some (v % 2 ^ 32) := by
  simp only [readUInt32LE, u64le, List.length_cons, List.length_nil, List.getD_cons_succ,
    List.getD_cons_zero]
  norm_num
  omega

/- Claim theorems. -/

/-- C9: both the facilitator parser and the client parser extract a
`setComputeUnitPrice` value as only the lower 4 bytes of the 8-byte
little-endian microLamports field, i.e. the encoded u64 modulo 2^32, so two
encoded prices that agree modulo 2^32 are indistinguishable to both. -/
theorem c9_price_low32 (v v1 v2 : Nat) (h : v1 % 2 ^ 32 = v2 % 2 ^ 32) :
    SolanaService.getComputeUnitPrice (setComputeUnitPriceIx v) = some (v % 2 ^ 32) ∧
    TransactionParser.getComputeUnitPrice (setComputeUnitPriceIx v) = some (v % 2 ^ 32) ∧
    SolanaService.getComputeUnitPrice (setComputeUnitPriceIx v1) =
      SolanaService.getComputeUnitPrice (setComputeUnitPriceIx v2) ∧
    TransactionParser.getComputeUnitPrice (setComputeUnitPriceIx v1) =
      TransactionParser.getComputeUnitPrice (setComputeUnitPriceIx v2) := by
  have hs : ∀ w : Nat, SolanaService.getComputeUnitPrice (setComputeUnitPriceIx w) =
      some (w % 2 ^ 32) := by
    intro w
    simp [SolanaService.getComputeUnitPrice, SolanaService.isSetComputeUnitPrice,
      SolanaService.isComputeBudgetInstruction, setComputeUnitPriceIx,
      readUInt32LE_disc_u64le]
  have ht : ∀ w : Nat, TransactionParser.getComputeUnitPrice (setComputeUnitPriceIx w) =
      some (w % 2 ^ 32) := by
    intro w
    simp [TransactionParser.getComputeUnitPrice, TransactionParser.isSetComputeUnitPrice,
      TransactionParser.isComputeBudgetInstruction, setComputeUnitPriceIx,
      readUInt32LE_disc_u64le]
  refine ⟨hs v, ht v, ?_, ?_⟩
  · rw [hs v1, hs v2, h]
  · rw [ht v1, ht v2, h]

/-- C9 witness: 7 and 7 + 2^32 are indistinguishable to both parsers. -/
theorem c9_price_low32_witness :
    SolanaService.getComputeUnitPrice (setComputeUnitPriceIx 7) =
      SolanaService.getComputeUnitPrice (setComputeUnitPriceIx (7 + 2 ^ 32)) ∧
    TransactionParser.getComputeUnitPrice (setComputeUnitPriceIx 7) =
      TransactionParser.getComputeUnitPrice (setComputeUnitPriceIx (7 + 2 ^ 32)) :=
  ⟨(c9_price_low32 0 7 (7 + 2 ^ 32) (by decide)).2.2.1,
   (c9_price_low32 0 7 (7 + 2 ^ 32) (by decide)).2.2.2⟩

/-- C3: the EVM atomic verifier accepts only when `feePay.to` equals the
on-chain fee receiver (case-insensitive), `feePay.from` equals `userPay.to`
(case-insensitive) and `feePay.value` equals
`floor(userPay.value * feeBps / 10000)` exactly; whenever `feePay.value`
differs from that floor the result is invalid. -/
theorem c3_fee_formula_exact (env : EVMService.EVMEnv) (p : EVMService.EVMAtomicPayload) :
    ((EVMService.verifyAtomicPayment env p).isValid = true →
      p.feePay.to_.toLower = env.feeReceiver.toLower ∧
      p.feePay.from_.toLower = p.userPay.to_.toLower ∧
      p.feePay.value = p.userPay.value * env.feeBps / 10000) ∧
    (p.feePay.value ≠ p.userPay.value * env.feeBps / 10000 →
      (EVMService.verifyAtomicPayment env p).isValid = false) := by
  constructor
  · intro h
    unfold EVMService.verifyAtomicPayment at h
    split at h
    · simp at h
    · split_ifs at h with h1 h2 h3 h4 h5 h6 <;>
        by_cases hval : p.feePay.value = p.userPay.value * env.feeBps / 10000 <;>
        simp_all [bne]
  · intro hne
    unfold EVMService.verifyAtomicPayment
    split
    · rfl
    · split_ifs with h1 h2 h3 h4 h5 h6 <;>
        by_cases hval : p.feePay.value = p.userPay.value * env.feeBps / 10000 <;>
        simp_all [bne]

/-- C3 witness: with feeBps 9999 and userPay.value 1 the floor fee is 0, so a
feePay.value of 1 is rejected. -/
theorem c3_fee_formula_exact_witness :
    (EVMService.verifyAtomicPayment
      { now := 50, recover := fun _ a => some a.from_, isAddress := fun _ => true
        feeReceiver := "0xfee", feeBps := 9999, proxyContract := fun _ => some "0xproxy" }
      { userPay := { from_ := "0xu", to_ := "0xm", value := 1, validAfter := 0
                     validBefore := 100, nonce := 1, v := 27, r := 1, s := 1 }
        feePay := { from_ := "0xm", to_ := "0xfee", value := 1, validAfter := 0
                    validBefore := 100, nonce := 2, v := 27, r := 1, s := 1 }
        target := "", callback := "", network := "base" }).isValid = false :=
  (c3_fee_formula_exact _ _).2 (by decide)

/-- C8: atomic settlement re-runs the atomic verifier and, whenever it
returns false, reports failure without invoking `sendTransaction`
(the second component records whether a submission was attempted);
conversely a submission is only ever attempted after a successful
re-verification. -/
theorem c8_settle_gated_on_verify (cfg : Config) (env : ChainEnv)
    (senv : SolanaService.SubmitEnv) (req : Requirements) (instrs : List Instruction) :
    (SolanaService.verifyAtomicPayment cfg env req instrs = false →
      SolanaService.settleAtomicPayment cfg env senv req instrs =
        ({ success := false, transactionHash := none
           error := some "Atomic payment verification failed" }, false)) ∧
    ((SolanaService.settleAtomicPayment cfg env senv req instrs).2 = true →
      SolanaService.verifyAtomicPayment cfg env req instrs = true) := by
  constructor
  · intro h
    unfold SolanaService.settleAtomicPayment
    simp [h]
  · intro h
    by_cases hv : SolanaService.verifyAtomicPayment cfg env req instrs = true
    · exact hv
    · unfold SolanaService.settleAtomicPayment at h
      simp [Bool.eq_false_iff.mpr hv] at h

/-- C8 witness: an empty transaction fails atomic verification and settlement
reports failure without submitting. -/
theorem c8_settle_gated_on_verify_witness :
    SolanaService.settleAtomicPayment {} concreteEnv ⟨some "sig", false⟩ {} [] =
      ({ success := false, transactionHash := none
         error := some "Atomic payment verification failed" }, false) :=
  (c8_settle_gated_on_verify {} concreteEnv ⟨some "sig", false⟩ {} []).1 (by decide)

/-- C5: authorization-model verification rejects (isValid = false, not a mere
warning) any authorization whose current time is strictly before
`validAfter` or strictly after `validBefore`; both boundaries are inclusive:
with a matching recovered signer and `validAfter ≤ now ≤ validBefore` the
check passes.  The same strict-inequality rejections hold in
`BaseService.verifyPayment`. -/
theorem c5_time_window (env : EVMService.EVMEnv) (auth : EVMService.EVMPayAuth)
    (network : String) (now : Nat) (payload : BaseService.Payload)
    (req : BaseService.Requirements) :
    (env.now < auth.validAfter →
      (EVMService.verifyTransferWithAuthorization env auth network).isValid = false) ∧
    (auth.validBefore < env.now →
      (EVMService.verifyTransferWithAuthorization env auth network).isValid = false) ∧
    (∀ rec, env.recover network auth = some rec → rec.toLower = auth.from_.toLower →
      auth.validAfter ≤ env.now → env.now ≤ auth.validBefore →
      (EVMService.verifyTransferWithAuthorization env auth network).isValid = true) ∧
    (now < payload.authorization.validAfter →
      BaseService.verifyPayment now payload req = false) ∧
    (payload.authorization.validBefore < now →
      BaseService.verifyPayment now payload req = false) := by
  refine ⟨?_, ?_, ?_, ?_, ?_⟩
  · intro hlt
    unfold EVMService.verifyTransferWithAuthorization
    split
    · rfl
    · split_ifs with h1 <;> simp_all
  · intro hlt
    unfold EVMService.verifyTransferWithAuthorization
    split
    · rfl
    · split_ifs with h1 <;> simp_all
  · intro rec hrec hmatch h1 h2
    unfold EVMService.verifyTransferWithAuthorization
    rw [hrec]
    simp [bne, hmatch, Nat.not_lt.mpr h1, Nat.not_lt.mpr h2]
  · intro hlt
    unfold BaseService.verifyPayment
    split_ifs <;> simp_all
  · intro hlt
    unfold BaseService.verifyPayment
    split_ifs <;> simp_all

/-- C5 witness: at `now = validAfter = validBefore` the check passes; one
second before the window it is rejected; one second after it is rejected. -/
theorem c5_time_window_witness :
    (EVMService.verifyTransferWithAuthorization
      { now := 100, recover := fun _ _ => some "0xab", isAddress := fun _ => true
        feeReceiver := "", feeBps := 0, proxyContract := fun _ => none }
      { from_ := "0xab", to_ := "0xcd", value := 5, validAfter := 100
        validBefore := 100, nonce := 1, v := 27, r := 1, s := 1 } "base").isValid = true ∧
    (EVMService.verifyTransferWithAuthorization
      { now := 99, recover := fun _ _ => some "0xab", isAddress := fun _ => true
        feeReceiver := "", feeBps := 0, proxyContract := fun _ => none }
      { from_ := "0xab", to_ := "0xcd", value := 5, validAfter := 100
        validBefore := 100, nonce := 1, v := 27, r := 1, s := 1 } "base").isValid = false ∧
    (EVMService.verifyTransferWithAuthorization
      { now := 101, recover := fun _ _ => some "0xab", isAddress := fun _ => true
        feeReceiver := "", feeBps := 0, proxyContract := fun _ => none }
      { from_ := "0xab", to_ := "0xcd", value := 5, validAfter := 100
        validBefore := 100, nonce := 1, v := 27, r := 1, s := 1 } "base").isValid = false :=
  ⟨(c5_time_window _ _ "base" 0 ⟨"", ⟨"", "", 0, 0, 0, ""⟩⟩ ⟨"base", none, none⟩).2.2.1
      "0xab" rfl rfl (by decide) (by decide),
   (c5_time_window _ _ "base" 0 ⟨"", ⟨"", "", 0, 0, 0, ""⟩⟩ ⟨"base", none, none⟩).1
      (by decide),
   (c5_time_window _ _ "base" 0 ⟨"", ⟨"", "", 0, 0, 0, ""⟩⟩ ⟨"base", none, none⟩).2.1
      (by decide)⟩

/-- Characterization of the callback-wallet validation: it accepts exactly
when no account of any callback instruction is the user wallet. -/
lemma validateCallback_true_iff (cbs : List Instruction) (w : Nat) :
    (!(cbs.any fun ix => ix.keys.any fun k => k.pubkey == w)) = true ↔
      ∀ ix ∈ cbs, ∀ k ∈ ix.keys, k.pubkey ≠ w := by
  simp [List.any_eq_true]

/-- C10: both client-side validators reject exactly when the user wallet
appears in any account position of any callback instruction, irrespective of
the signer/writable flags; consequently any atomic transaction the SDK
builder produces appends only callback instructions that never reference the
user wallet. -/
theorem c10_callback_wallet_exclusion :
    (∀ cbs w, IntentChecker.validateCallbackInstructions cbs w = true ↔
      ∀ ix ∈ cbs, ∀ k ∈ ix.keys, k.pubkey ≠ w) ∧
    (∀ cbs w, ClientSDK.validateSolanaCallbackInstructions cbs w = true ↔
      ∀ ix ∈ cbs, ∀ k ∈ ix.keys, k.pubkey ≠ w) ∧
    (∀ env payer req built,
      ClientSDK.createSolanaAtomicPaymentTransaction env payer req = some built →
      ∃ cbs pre, req.extra.callbackInstructions = some cbs ∧ built = pre ++ cbs ∧
        ∀ ix ∈ cbs, ∀ k ∈ ix.keys, k.pubkey ≠ payer) := by
  refine ⟨fun cbs w => validateCallback_true_iff cbs w,
          fun cbs w => validateCallback_true_iff cbs w, ?_⟩
  intro env payer req built hb
  cases hcb : req.extra.callbackInstructions with
  | none =>
    unfold ClientSDK.createSolanaAtomicPaymentTransaction at hb
    simp [hcb] at hb
  | some cbs =>
    unfold ClientSDK.createSolanaAtomicPaymentTransaction at hb
    by_cases hval : ClientSDK.validateSolanaCallbackInstructions cbs payer = true
    · cases hp : req.payTo with
      | none => simp [hcb, hval, hp] at hb
      | some recipient =>
        cases hm : req.maxAmountRequired with
        | none => simp [hcb, hval, hp, hm] at hb
        | some amount =>
          simp only [hcb, hval, hp, hm, Bool.not_true, Bool.false_eq_true, if_false,
            Option.some.injEq] at hb
          have hsuf : List.IsSuffix cbs built := by
            rw [← hb]
            simp only [List.append_assoc]
            exact ((List.suffix_append _ _).trans
              ((List.suffix_append _ _).trans (List.suffix_append _ _)))
          obtain ⟨pre, hpre⟩ := hsuf
          exact ⟨cbs, pre, rfl, hpre.symm, (validateCallback_true_iff cbs payer).mp hval⟩
    · simp [hcb, hval] at hb

/-- C10 witness: the builder succeeds on a callback that does not mention the
payer wallet 5, and the produced transaction ends with that callback list. -/
theorem c10_callback_wallet_exclusion_witness :
    ∃ cbs pre,
      (Requirements.mk "solana" (some 7) (some 10) none
        ⟨some 1, none, none, some [⟨99, [⟨8, true, true⟩], []⟩]⟩).extra.callbackInstructions =
          some cbs ∧
      (ClientSDK.createSolanaAtomicPaymentTransaction concreteEnv 5
        (Requirements.mk "solana" (some 7) (some 10) none
          ⟨some 1, none, none, some [⟨99, [⟨8, true, true⟩], []⟩]⟩)).getD [] = pre ++ cbs ∧
      ∀ ix ∈ cbs, ∀ k ∈ ix.keys, k.pubkey ≠ 5 := by
  obtain ⟨cbs, pre, h1, h2, h3⟩ :=
    (c10_callback_wallet_exclusion).2.2 concreteEnv 5
      (Requirements.mk "solana" (some 7) (some 10) none
        ⟨some 1, none, none, some [⟨99, [⟨8, true, true⟩], []⟩]⟩)
      ((ClientSDK.createSolanaAtomicPaymentTransaction concreteEnv 5
        (Requirements.mk "solana" (some 7) (some 10) none
          ⟨some 1, none, none, some [⟨99, [⟨8, true, true⟩], []⟩]⟩)).getD [])
      (by decide)
  exact ⟨cbs, pre, h1, h2, h3⟩

/-- C1: the atomic verifier accepts only transactions whose instruction tail
after the payment prefix (leading compute-budget pair, optional ATA
creation, transfer) equals the declared callback list in count, order and
per-instruction equality; in particular, a trailing permutation of the
callback list that is not in the declared order is rejected. -/
theorem c1_atomic_tail_exact (cfg : Config) (env : ChainEnv) (req : Requirements)
    (instrs cbs : List Instruction)
    (hcb : req.extra.callbackInstructions = some cbs) :
    (SolanaService.verifyAtomicPayment cfg env req instrs = true →
      ∃ tail, SolanaService.atomicRemaining instrs = some tail ∧
        tail.length = cbs.length ∧
        SolanaService.pairwiseInstructionsEqual tail cbs = true) ∧
    (∀ tail, SolanaService.atomicRemaining instrs = some tail → tail.Perm cbs →
      SolanaService.pairwiseInstructionsEqual tail cbs = false →
      SolanaService.verifyAtomicPayment cfg env req instrs = false) := by
  have main : SolanaService.verifyAtomicPayment cfg env req instrs = true →
      ∃ tail, SolanaService.atomicRemaining instrs = some tail ∧
        tail.length = cbs.length ∧
        SolanaService.pairwiseInstructionsEqual tail cbs = true := by
    intro h
    unfold SolanaService.verifyAtomicPayment SolanaService.verifyAtomicPaymentCore at h
    rw [hcb] at h
    split at h
    · simp at h
    · split at h
      · simp at h
      · split at h
        · simp at h
        · split at h
          · simp at h
          · split at h
            · simp at h
            · rename_i cbs2 heq2
              injection heq2 with he2
              subst he2
              split at h
              · simp at h
              · rw [Option.getD_some] at h
                unfold SolanaService.atomicStructureCheck at h
                split at h
                · simp at h
                · rename_i tail htail
                  rw [Bool.and_eq_true] at h
                  exact ⟨tail, htail, by simpa using h.1, h.2⟩
  refine ⟨main, ?_⟩
  intro tail hrem hperm hpw
  by_contra hne
  rw [Bool.not_eq_false] at hne
  obtain ⟨tail2, hrem2, hlen, hpw2⟩ := main hne
  rw [hrem] at hrem2
  injection hrem2 with he
  subst he
  rw [hpw] at hpw2
  exact Bool.false_ne_true hpw2

/-- C1 witness: with callbacks declared `[cbA, cbB]` but the transaction tail
carrying `[cbB, cbA]` (a permutation, not the declared order), the atomic
verifier rejects. -/
theorem c1_atomic_tail_exact_witness :
    SolanaService.verifyAtomicPayment {} concreteEnv reqC1 instrsC1 = false :=
  (c1_atomic_tail_exact {} concreteEnv reqC1 instrsC1 [cbA, cbB] rfl).2
    [cbB, cbA] (by decide) (List.Perm.swap cbA cbB []) (by decide)

/-- C2 counterexample: an atomic transaction carrying a SetComputeUnitLimit
of 1000001, strictly above the configured ceiling of 1000000, that the
atomic verifier nevertheless accepts: the scan keeps only the LAST limit
instruction value, and a second in-tail limit instruction (declared as a
callback) masks the over-ceiling one. -/
theorem c2_counterexample :
    SolanaService.verifyAtomicPayment {} concreteEnv reqC2 instrsC2 = true ∧
    limitHugeC2 ∈ instrsC2 ∧
    SolanaService.isSetComputeUnitLimit limitHugeC2 = true ∧
    readUInt32LE limitHugeC2.data 1 = some 1000001 ∧
    ({} : Config).maxComputeUnitLimitAtomic < 1000001 :=
  ⟨by decide, by decide, by decide, by decide, by decide⟩

/-- C2 (amended): whenever every SetComputeUnitLimit instruction of the
transaction carries a value strictly above the configured ceiling — in
particular when the transaction has a single limit instruction above the
ceiling, as in the ceiling=1000000 / limit=1000001 scenario — the atomic
verifier returns false. -/
theorem c2_ceiling_all_limits (cfg : Config) (env : ChainEnv) (req : Requirements)
    (instrs : List Instruction)
    (hall : ∀ ix ∈ instrs, SolanaService.isSetComputeUnitLimit ix = true →
      ∀ v, readUInt32LE ix.data 1 = some v → cfg.maxComputeUnitLimitAtomic < v) :
    SolanaService.verifyAtomicPayment cfg env req instrs = false := by
  unfold SolanaService.verifyAtomicPayment SolanaService.verifyAtomicPaymentCore
  split
  · rfl
  · cases hscan : SolanaService.scanBudget instrs with
    | none => rfl
    | some s =>
      by_cases hb : SolanaService.atomicBudgetCheck cfg req s = true
      · exfalso
        have hlim : s.hasLimit = true ∧ ¬ (cfg.maxComputeUnitLimitAtomic < s.limit) := by
          unfold SolanaService.atomicBudgetCheck at hb
          cases hX : (s.hasLimit && s.hasPrice) with
          | false => rw [hX] at hb; simp at hb
          | true =>
            rw [hX] at hb
            simp only [Bool.not_true, Bool.false_eq_true, if_false] at hb
            rw [Bool.and_eq_true] at hX
            refine ⟨hX.1, ?_⟩
            split at hb
            · simp at hb
            · simpa using hb
        rcases scanBudget_limit_source instrs {} s hscan hlim.1 with
          ⟨ix, hmem, hL, hread⟩ | ⟨hfa, -⟩
        · exact hlim.2 (hall ix hmem hL s.limit hread)
        · simp at hfa
      · simp [hb]

/-- C2 witness: the spec scenario — a single limit instruction of 1000001
against the default ceiling 1000000 — is rejected. -/
theorem c2_ceiling_all_limits_witness :
    SolanaService.verifyAtomicPayment {} concreteEnv reqC2
      [setComputeUnitPriceIx 1, setComputeUnitLimitIx 1000001,
       transferIx 50 110007 60 10] = false := by
  refine c2_ceiling_all_limits {} concreteEnv reqC2 _ ?_
  intro ix hmem hL v hv
  fin_cases hmem
  · exact absurd hL (by decide)
  · have hval : readUInt32LE (setComputeUnitLimitIx 1000001).data 1 = some 1000001 := by
      decide
    rw [hval] at hv
    injection hv with hv
    subst hv
    decide
  · exact absurd hL (by decide)

/-- C4 counterexample: a transaction whose only instruction places the user
wallet (9) as a signer+writable account on an unrecognized program is
reported SAFE by the intent checker — it only receives a warning, not an
error, contradicting the claim that such transactions are rejected. -/
theorem c4_counterexample :
    IntentChecker.analyzeTransaction 1000000 9 [unknownIxC4] = some resC4 ∧
    resC4.safe = true ∧
    resC4.warnings ≠ [] ∧
    (⟨9, true, true⟩ : AccountMeta) ∈ unknownIxC4.keys ∧
    IntentChecker.unknownWritableSignerKey 9 unknownIxC4 ⟨9, true, true⟩ = true :=
  ⟨by decide, rfl, by decide, by decide, by decide⟩

/-- C4 (amended): when some instruction places the signing user wallet as a
signer+writable account outside the recognized payment kinds, the intent
checker records a warning (never silent), but does not mark the transaction
unsafe: `safe` is exactly `errors.isEmpty`, and this pattern contributes no
error. -/
theorem c4_writable_signer_warning (m w : Nat) (instrs : List Instruction)
    (r : IntentChecker.IntentCheckResult)
    (hres : IntentChecker.analyzeTransaction m w instrs = some r)
    (hex : ∃ ix ∈ instrs, ∃ k ∈ ix.keys,
      IntentChecker.unknownWritableSignerKey w ix k = true) :
    r.warnings ≠ [] ∧ r.safe = r.errors.isEmpty := by
  unfold IntentChecker.analyzeTransaction at hres
  split at hres
  · rename_i hemp
    obtain ⟨ix, hmem, -⟩ := hex
    rw [List.isEmpty_iff.mp hemp] at hmem
    simp at hmem
  · cases hfold : List.foldlM (IntentChecker.analyzeStep m w) {} instrs with
    | none => rw [hfold] at hres; exact Option.noConfusion hres
    | some st =>
      rw [hfold] at hres
      simp only [Option.some.injEq] at hres
      have hwne := analyzeFold_warning_nonempty m w instrs {} st hfold hex
      constructor
      · rw [← hres]
        by_cases hpw : (st.hasComputePrice && !st.hasComputeLimit) = true
        · simp only [hpw, if_true]
          intro hcontra
          rw [List.append_eq_nil] at hcontra
          exact hwne hcontra.1
        · simp only [hpw]
          simpa using hwne
      · rw [← hres]

/-- C4 witness: on the single-instruction counterexample transaction the
amended claim holds concretely. -/
theorem c4_writable_signer_warning_witness :
    resC4.warnings ≠ [] ∧ resC4.safe = resC4.errors.isEmpty :=
  c4_writable_signer_warning 1000000 9 [unknownIxC4] resC4 (by decide)
    ⟨unknownIxC4, by decide, ⟨9, true, true⟩, by decide, by decide⟩

/-- C6 counterexample: with an explicitly specified target compute-unit
price of 0, the non-atomic verifier accepts a transaction whose found price
is 7 — an exact-match requirement is only enforced for positive targets. -/
theorem c6_counterexample :
    SolanaService.verifyPayment {} concreteEnv reqC6 instrsC6 = true ∧
    reqC6.extra.computeUnitPrice = some 0 ∧
    (SolanaService.scanBudget instrsC6).map SolanaService.BudgetScan.price = some 7 :=
  ⟨by decide, rfl, by decide⟩

/-- C6 (amended): the non-atomic verifier rejects partial compute-budget
pairs (price without limit or limit without price); when compute-budget
instructions are present and it accepts, a POSITIVE target price is matched
exactly, and a POSITIVE target limit is matched exactly unless an
ATA-creation instruction is present and the found limit is at most twice the
target. -/
theorem c6_compute_budget_rules (cfg : Config) (env : ChainEnv) (req : Requirements)
    (instrs : List Instruction) (s : SolanaService.BudgetScan)
    (hscan : SolanaService.scanBudget instrs = some s) :
    (s.hasLimit ≠ s.hasPrice → SolanaService.verifyPayment cfg env req instrs = false) ∧
    (SolanaService.verifyPayment cfg env req instrs = true →
      (s.hasLimit || s.hasPrice) = true →
      (0 < req.extra.computeUnitPrice.getD cfg.computeUnitPrice →
        s.price = req.extra.computeUnitPrice.getD cfg.computeUnitPrice) ∧
      (0 < req.extra.computeUnitLimit.getD cfg.computeUnitLimit →
        (s.limit = req.extra.computeUnitLimit.getD cfg.computeUnitLimit ∨
          (instrs.any SolanaService.isATACreationInstruction = true ∧
            s.limit ≤ req.extra.computeUnitLimit.getD cfg.computeUnitLimit * 2)))) := by
  constructor
  · intro hne
    unfold SolanaService.verifyPayment SolanaService.verifyPaymentCore
    split
    · rfl
    · rw [hscan]
      have hcb : SolanaService.checkComputeBudget cfg req instrs s = false := by
        unfold SolanaService.checkComputeBudget
        cases hL : s.hasLimit <;> cases hP : s.hasPrice <;> simp_all
      simp [hcb]
  · intro hv hor
    have hcb : SolanaService.checkComputeBudget cfg req instrs s = true := by
      by_cases hc : SolanaService.checkComputeBudget cfg req instrs s = true
      · exact hc
      · exfalso
        unfold SolanaService.verifyPayment SolanaService.verifyPaymentCore at hv
        split at hv
        · simp at hv
        · rw [hscan] at hv
          simp [Bool.eq_false_iff.mpr hc] at hv
    unfold SolanaService.checkComputeBudget at hcb
    rw [if_pos hor] at hcb
    cases hand : (s.hasLimit && s.hasPrice) with
    | false => rw [hand] at hcb; simp at hcb
    | true =>
      rw [hand] at hcb
      simp only [Bool.not_true, Bool.false_eq_true, if_false] at hcb
      split at hcb
      · simp at hcb
      · rename_i hpc
        split at hcb
        · rename_i hlc
          simp only [Bool.and_eq_true, decide_eq_true_eq, bne_iff_ne] at hpc hlc
          rw [Bool.and_eq_true] at hcb
          constructor
          · intro hp
            by_cases hpe : s.price = req.extra.computeUnitPrice.getD cfg.computeUnitPrice
            · exact hpe
            · exact absurd ⟨hp, hpe⟩ hpc
          · intro _
            refine Or.inr ⟨hcb.1, ?_⟩
            have := hcb.2
            simp only [Bool.not_eq_true', decide_eq_false_iff_not, Nat.not_lt] at this
            omega
        · rename_i hlc
          simp only [Bool.and_eq_true, decide_eq_true_eq, bne_iff_ne, not_and,
            not_not] at hpc hlc
          constructor
          · intro hp
            by_cases hpe : s.price = req.extra.computeUnitPrice.getD cfg.computeUnitPrice
            · exact hpe
            · exact absurd (hpc hp) hpe
          · intro hl
            exact Or.inl (hlc hl)

/-- C6 witness: a price instruction without a limit instruction is
rejected. -/
theorem c6_compute_budget_rules_witness :
    SolanaService.verifyPayment {} concreteEnv {} [setComputeUnitPriceIx 1] = false :=
  (c6_compute_budget_rules {} concreteEnv {} [setComputeUnitPriceIx 1]
    ⟨false, true, 0, 1⟩ (by decide)).1 (by decide)

/-- C7 counterexample: the non-atomic verifier accepts a transaction that
contains TWO token-transfer instructions — only the first one is ever
located and validated, so acceptance does not require exactly one. -/
theorem c7_counterexample :
    SolanaService.verifyPayment {} concreteEnv reqC7 instrsC7 = true ∧
    (instrsC7.filter SolanaService.isTokenTransferInstruction).length = 2 :=
  ⟨by decide, by decide⟩

/-- C7 (amended): the non-atomic verifier fails when no token-transfer
instruction is present; it validates only the first transfer instruction it
finds, so acceptance requires at least one (not exactly one). -/
theorem c7_transfer_required (cfg : Config) (env : ChainEnv) (req : Requirements)
    (instrs : List Instruction)
    (habs : ∀ ix ∈ instrs, SolanaService.isTokenTransferInstruction ix = false) :
    SolanaService.verifyPayment cfg env req instrs = false := by
  have hts : SolanaService.checkTransferSection env req instrs = false := by
    unfold SolanaService.checkTransferSection
    rw [show List.find? SolanaService.isTokenTransferInstruction instrs = none from
      List.find?_eq_none.mpr (fun x hx => by simp [habs x hx])]
  unfold SolanaService.verifyPayment SolanaService.verifyPaymentCore
  split
  · rfl
  · cases hscan : SolanaService.scanBudget instrs with
    | none => rfl
    | some s =>
      by_cases hc : SolanaService.checkComputeBudget cfg req instrs s = true
      · simp [hc, hts]
      · simp [Bool.eq_false_iff.mpr hc]

/-- C7 witness: a transaction with compute-budget instructions but no
transfer is rejected. -/
theorem c7_transfer_required_witness :
    SolanaService.verifyPayment {} concreteEnv {}
      [setComputeUnitPriceIx 1, setComputeUnitLimitIx 40000] = false :=
  c7_transfer_required {} concreteEnv {} _ (by decide)

end X402
